import Mathlib

/-!
Verification development for pympress (a dual-window PDF presentation viewer).

Shallow embedding of the navigation/timer/UI-event logic of
`src/main.py` and `src/pympress/ui.py`. Wall-clock times and coordinates
are modelled as rationals (the code uses Python floats for wall-clock
subtraction; the algorithmic content is exact arithmetic). The module
`pympress.document` is imported by the code but its source is not in the
repository; the Document/Page operations it provides (`goto`,
`current_page`, `next_page`, `pages_number`, `get_aspect_ratio`,
`get_link_at`) are modelled from the spec, and are marked as such.
-/

namespace Pympress

/-! ### Timer state (ui.py class attributes `start_time`, `delta`, `paused`) -/

/-- The timer-related part of the `UI` class state: `start_time` (time at
which the counter was started, `0` meaning "never started"), `delta` (time
elapsed since the beginning of the presentation) and `paused`. -/
structure TimerState where
  start_time : ℚ
  delta : ℚ
  paused : Bool
deriving Repr, DecidableEq

/-- Initial values of the class attributes: `start_time = 0`, `delta = 0`,
`paused = True`. -/
def initTimer : TimerState := ⟨0, 0, true⟩

/-- Python `int()` truncation toward zero of a rational. -/
def pyTrunc (q : ℚ) : ℤ := if 0 ≤ q then ⌊q⌋ else -⌊-q⌋

/-- Python float `%` with the sign convention of Python (`a - b*floor(a/b)`). -/
def pyFMod (a b : ℚ) : ℚ := a - b * ⌊a / b⌋

/-- Decimal digits of a natural number, via an explicit fuel argument so
that the recursion is structural (and reduces in the kernel). -/
def natDigitsAux : ℕ → ℕ → List Char
  | 0, _ => []
  | fuel + 1, n => if n = 0 then [] else natDigitsAux fuel (n / 10) ++ [Char.ofNat (48 + n % 10)]

/-- Decimal rendering of a natural number. -/
def natToString (n : ℕ) : String :=
  if n = 0 then "0" else ⟨natDigitsAux (n + 1) n⟩

/-- Decimal rendering of an integer. -/
def intToString (z : ℤ) : String :=
  if z < 0 then "-" ++ natToString z.natAbs else natToString z.natAbs

/-- Python `"%02d" % n`: decimal rendering zero-padded to width 2. -/
def format2d (n : ℤ) : String :=
  if 0 ≤ n ∧ n < 10 then "0" ++ intToString n else intToString n

/-- The elapsed text built by `update_time` before the pause suffix:
`"%02d:%02d" % (int(delta/60), int(delta % 60))`. -/
def elapsed_base (delta : ℚ) : String :=
  format2d (pyTrunc (delta / 60)) ++ ":" ++ format2d (pyTrunc (pyFMod delta 60))

/-- `UI.update_time` (ui.py lines 631-654): if not paused, recompute
`delta = time.time() - start_time`; format the elapsed label, appending
`" (pause)"` when paused; always return `True` so GLib keeps the repeating
timer alive. Result: (new timer state, elapsed label text, return value). -/
def update_time_full (now : ℚ) (s : TimerState) : TimerState × String × Bool :=
  let s1 := if ¬s.paused then { s with delta := now - s.start_time } else s
  let elapsed := elapsed_base s1.delta
  let elapsed := if s1.paused then elapsed ++ " (pause)" else elapsed
  (s1, elapsed, true)

/-- State effect of `UI.update_time`. -/
def update_time (now : ℚ) (s : TimerState) : TimerState :=
  (update_time_full now s).1

/-- `UI.switch_pause` (ui.py lines 656-663): if paused, set
`start_time = now - delta` and unpause; otherwise pause; then call
`update_time`. -/
def switch_pause (now : ℚ) (s : TimerState) : TimerState :=
  if s.paused then
    update_time now { s with start_time := now - s.delta, paused := false }
  else
    update_time now { s with paused := true }

/-- `UI.reset_timer` (ui.py lines 665-668): set `start_time = now`, then
call `update_time`. Note that `delta` is not assigned directly: it is only
recomputed inside `update_time`, and only when the timer is running. -/
def reset_timer (now : ℚ) (s : TimerState) : TimerState :=
  update_time now { s with start_time := now }

/-! ### Document and Page (modelled from the spec: `pympress/document.py`
is imported by `main.py` and `ui.py` but its source is not in the
repository) -/

/-- Modelled from the spec: a Link has a rectangular hit region in
normalized 0..1 coordinates and a destination page index. -/
structure Link where
  x1 : ℚ
  y1 : ℚ
  x2 : ℚ
  y2 : ℚ
  dest : ℤ
deriving Repr, DecidableEq

/-- Whether a normalized point lies in the link's rectangle. -/
def Link.contains (l : Link) (x y : ℚ) : Bool :=
  decide (l.x1 ≤ x ∧ x ≤ l.x2 ∧ l.y1 ≤ y ∧ y ≤ l.y2)

/-- Modelled from the spec: a Page has a size (width, height) in page
units and zero or more Links. -/
structure Page where
  width : ℚ
  height : ℚ
  links : List Link
deriving Repr, DecidableEq

/-- Modelled from the spec: `Page.get_link_at(nx, ny)` returns the first
link whose rectangle contains the normalized point, or none. -/
def Page.get_link_at (p : Page) (x y : ℚ) : Option Link :=
  p.links.find? (fun l => l.contains x y)

/-- Modelled from the spec: `Page.get_aspect_ratio(notes_mode)` returns
the full-width ratio when notes mode is off and the half-width ratio
(content half of a double-wide page) when it is on. -/
def Page.get_aspect_ratio (p : Page) (notes_mode : Bool) : ℚ :=
  if notes_mode then (p.width / 2) / p.height else p.width / p.height

/-- Modelled from the spec: the Document tracks an ordered sequence of
pages and a 0-based `current_index` with `0 <= current_index < page_count`. -/
structure Document where
  count : ℕ
  cur : ℕ
deriving Repr, DecidableEq

/-- `Document.pages_number()`. -/
def Document.pages_number (d : Document) : ℕ := d.count

/-- Index of `Document.current_page()` (its `number()`). -/
def Document.current_number (d : Document) : ℕ := d.cur

/-- Modelled from the spec: `Document.next_page()` is the page after the
current one, or none at the last page. -/
def Document.next_number (d : Document) : Option ℕ :=
  if d.cur + 1 < d.count then some (d.cur + 1) else none

/-- Clamping of a requested index into `[0, count)`, as the spec requires
of every navigation entry point. -/
def clampIdx (n : ℤ) (count : ℕ) : ℕ := (max 0 (min n ((count : ℤ) - 1))).toNat

/-- Modelled from the spec: `Document.goto(i)` clamps `i` into range and,
on actual index change, notifies the UI controller (the returned Bool). -/
def Document.goto (d : Document) (n : ℤ) : Document × Bool :=
  let n1 := clampIdx n d.count
  if n1 = d.cur then (d, false) else ({ d with cur := n1 }, true)

/-! ### Page change and expose handlers (ui.py) -/

/-- Which widgets `UI.on_expose` touched during a page change, and whether
the next-slide pane ended up hidden. "Exposed" means its `on_expose`
handler was invoked; "rendered" means `render_page` was actually reached
(for the next-slide pane, `on_expose` hides the widget and returns early
when there is no next page). -/
structure RenderEffects where
  exposed_c : Bool
  exposed_cur : Bool
  exposed_next : Bool
  rendered_next : Bool
  next_hidden : Bool
deriving Repr, DecidableEq

/-- The part of `UI.on_expose` (ui.py lines 382-416) relevant to the
next-slide pane: when `next_page()` is `None` the widget is hidden and the
handler returns before rendering; otherwise it is shown and rendered. -/
def on_expose_next (d : Document) : Bool × Bool :=
  match d.next_number with
  | none => (false, true)
  | some _ => (true, false)

/-- The full UI state the handlers mutate: timer, mode flags and the
document's navigation state. -/
structure UIState where
  timer : TimerState
  notes_mode : Bool
  fullscreen : Bool
  doc : Document
deriving Repr, DecidableEq

/-- `UI.on_page_change` (ui.py lines 340-380): set the aspect-ratio of the
frames from the current (and next, when present) page; if `unpause`, set
`paused = False` and, only when `start_time == 0` (never started), set
`start_time = now`; update the page-number labels; then call `on_expose`
directly on the content area, the presenter current-slide area and the
presenter next-slide area. The prerender bounds computed at the end are
discarded by the code and are not modelled. -/
def on_page_change (now : ℚ) (unpause : Bool) (s : UIState) : UIState × RenderEffects :=
  let t := s.timer
  let t1 := if unpause then
      { t with paused := false,
               start_time := if t.start_time = 0 then now else t.start_time }
    else t
  let nxt := on_expose_next s.doc
  ({ s with timer := t1 },
   { exposed_c := true, exposed_cur := true, exposed_next := true,
     rendered_next := nxt.1, next_hidden := nxt.2 })

/-- `UI.switch_mode` (ui.py lines 682-691): toggle `notes_mode`, then call
`on_page_change(False)`. -/
def switch_mode (now : ℚ) (s : UIState) : UIState × RenderEffects :=
  let s1 := { s with notes_mode := !s.notes_mode }
  on_page_change now false s1

/-! ### Python integer parsing (for the quick-jump entry) -/

/-- The whitespace characters stripped by Python `int(str)` (ASCII subset:
space, tab, newline, carriage return, vertical tab, form feed). -/
def isPySpace (c : Char) : Bool :=
  c = ' ' || c = '\t' || c = '\n' || c = '\r' || c = Char.ofNat 11 || c = Char.ofNat 12

/-- Value of a digit run, ignoring the underscore separators Python 3
allows between digits. -/
def digitsValue (l : List Char) : ℕ :=
  (l.filter Char.isDigit).foldl (fun a c => 10 * a + (c.toNat - 48)) 0

/-- Whether a character list is a valid Python digit run: nonempty, starts
and ends with a digit, only digits and underscores, and no two adjacent
underscores. -/
def validDigitsU (l : List Char) : Bool :=
  (match l with | [] => false | c :: _ => c.isDigit) &&
  (match l.getLast? with | none => false | some c => c.isDigit) &&
  l.all (fun c => c.isDigit || c = '_') &&
  ((l.zip l.tail).all fun p => !(p.1 = '_' && p.2 = '_'))

/-- Python `int(s)` on a string (ASCII model): strip surrounding
whitespace, optional sign, then a digit run; `none` models the
`ValueError` raised on anything else. -/
def pyStrToInt (s : String) : Option ℤ :=
  let l := ((s.toList.dropWhile isPySpace).reverse.dropWhile isPySpace).reverse
  match l with
  | '+' :: r => if validDigitsU r then some ((digitsValue r : ℤ)) else none
  | '-' :: r => if validDigitsU r then some (-(digitsValue r : ℤ)) else none
  | r => if validDigitsU r then some ((digitsValue r : ℤ)) else none

/-- Python `text.split('/')[0]`: the characters before the first slash. -/
def pySplitSlashHead (s : String) : String :=
  ⟨s.toList.takeWhile (fun c => c ≠ '/')⟩

/-! ### The label/entry toggle (`UI.on_label_event`, ui.py lines 508-567) -/

/-- Which widget the `eb_cur` event box currently holds. -/
inductive EBChild where
  | label
  | entry
deriving Repr, DecidableEq

/-- The events the `eb_cur` event-box handler can receive. `keyRelease`
carries the key name and the entry text at that moment
(`entry_cur.get_text()`); `focusChange` stands for the entry losing focus
by any path that is not a key release handled below. -/
inductive EBEvent where
  | buttonPress
  | keyRelease (name : String) (text : String)
  | focusChange
  | other
deriving Repr, DecidableEq

/-- `UI.on_label_event`: on a click on the label, swap in the entry
pre-filled with "current/total"; on a key release in the entry, Return
(or keypad Return/Enter) restores the label, parses the leading integer
before "/" (on `ValueError` the local `n` keeps its initial value
`current+1`), subtracts 1, and if the result differs from the current page
index clamps it and calls `doc.goto`; Escape restores the label; every
other event leaves the child and document untouched. Result:
(event-box child, document, whether `doc.goto` was called). -/
def on_label_event (ev : EBEvent) (child : EBChild) (d : Document) :
    EBChild × Document × Bool :=
  match child, ev with
  | .label, .buttonPress => (.entry, d, false)
  | .entry, .keyRelease name text =>
      if name = "Return" || name = "KP_Return" || name = "KP_Enter" then
        let n : ℤ :=
          (match pyStrToInt (pySplitSlashHead text) with
           | some k => k
           | none => (d.cur : ℤ) + 1)
        let n := n - 1
        if n ≠ (d.cur : ℤ) then
          let n := if n ≤ 0 then 0
                   else if (d.count : ℤ) ≤ n then (d.count : ℤ) - 1
                   else n
          (.label, (d.goto n).1, true)
        else (.label, d, false)
      else if name = "Escape" then (.label, d, false)
      else (.entry, d, false)
  | _, _ => (child, d, false)

/-! ### Link hit-testing (`UI.on_link`, ui.py lines 467-506) -/

/-- The three renderable panes wired to `on_link`. -/
inductive PaneWidget where
  | cDa
  | pDaCur
  | pDaNext
deriving Repr, DecidableEq

/-- Event kinds `on_link` distinguishes. -/
inductive LinkEventType where
  | buttonPress
  | motionNotify
deriving Repr, DecidableEq

/-- What `on_link` did to the pointer cursor. -/
inductive CursorSet where
  | hand
  | default
  | untouched
deriving Repr, DecidableEq

/-- `UI.on_link`: pick the page shown in the pane (`next_page()` for the
next-slide pane, returning early when it is `None`, else
`current_page()`; the `Page` values those calls return are passed in as
`pageCur` / `pageNext`), normalize the event coordinates by the pane's
pixel size, look the point up with `get_link_at`; on a button press
navigate to the link's destination when a link is there; on motion set a
hand cursor when over a link and the default cursor otherwise. -/
def on_link (widget : PaneWidget) (evType : LinkEventType) (x y ww wh : ℚ)
    (pageCur : Page) (pageNext : Option Page) (d : Document) :
    Document × CursorSet :=
  let page? : Option Page := if widget = .pDaNext then pageNext else some pageCur
  match page? with
  | none => (d, .untouched)
  | some page =>
    let x2 := x / ww
    let y2 := y / wh
    let link := page.get_link_at x2 y2
    match evType with
    | .buttonPress =>
        match link with
        | some l => ((d.goto l.dest).1, .untouched)
        | none => (d, .untouched)
    | .motionNotify =>
        match link with
        | some _ => (d, .hand)
        | none => (d, .default)

/-! ### Startup (`src/main.py`) -/

/-- Outcome of the file-chooser dialog shown when no argument is given. -/
inductive DialogResponse where
  | ok (filename : String)
  | cancel
  | deleteOrOther
deriving Repr, DecidableEq

/-- Observable outcome of running `main.py`: an error exit (code, whether
an error dialog was shown first), the uncaught `ValueError` raised on an
unexpected dialog response, or proceeding to open the document (the
process then exits 0 on a normal quit). -/
inductive MainResult where
  | exitErr (code : ℕ) (errorDialog : Bool)
  | valueError
  | opened (uri : String)
deriving Repr, DecidableEq

/-- `main.py` lines 35-88: with a command-line argument, take its absolute
path and exit 1 behind an error dialog when the path does not exist,
otherwise open `"file://" + name`; with no argument, run the file chooser:
OK opens the chosen file, Cancel leaves `name` as `None` which triggers
the "No file selected" dialog and exit 1, and any other response raises
`ValueError`. `abspath` and `pathExists` model the filesystem calls. -/
def main_run (arg : Option String) (abspath : String → String)
    (pathExists : String → Bool) (dialog : DialogResponse) : MainResult :=
  match arg with
  | some p =>
      let name := abspath p
      if pathExists name then .opened ("file://" ++ name)
      else .exitErr 1 true
  | none =>
      match dialog with
      | .ok f => .opened ("file://" ++ f)
      | .cancel => .exitErr 1 true
      | .deleteOrOther => .valueError

/-! ### Helper lemmas -/

theorem clampIdx_lt (z : ℤ) (count : ℕ) (hc : 0 < count) : clampIdx z count < count := by
  unfold clampIdx
  omega

theorem clampIdx_of_lt (n : ℕ) (count : ℕ) (h : n < count) : clampIdx (n : ℤ) count = n := by
  unfold clampIdx
  omega

theorem uiClamp_eq_clampIdx (z : ℤ) (count : ℕ) (hc : 0 < count) :
    (if z ≤ 0 then 0 else if (count : ℤ) ≤ z then (count : ℤ) - 1 else z) =
      ((clampIdx z count : ℕ) : ℤ) := by
  unfold clampIdx
  split_ifs <;> omega

theorem Document.goto_fst_cur (d : Document) (n : ℤ) :
    ((d.goto n).1).cur = clampIdx n d.count := by
  unfold Document.goto
  dsimp only
  split_ifs with h
  · exact h.symm
  · rfl

theorem Document.goto_fst_count (d : Document) (n : ℤ) :
    ((d.goto n).1).count = d.count := by
  unfold Document.goto
  dsimp only
  split_ifs <;> rfl

/-! ### Claim theorems -/

/-- C1: `switch_pause` toggles Paused/Running and, on Paused→Running, sets
the start timestamp to now minus the accumulated elapsed time; hence for a
run that starts the timer at `t0`, ticks after `dt` seconds, pauses,
resumes at an arbitrary later instant `t1`, and ticks after `dt2` more
seconds, the elapsed time read afterwards is `dt + dt2`, and every read
while paused yields `dt` regardless of wall-clock passage. -/
theorem switch_pause_continuity (st t0 dt t1 dt2 : ℚ) :
    (switch_pause (t0 + dt) (update_time (t0 + dt)
        (switch_pause t0 (TimerState.mk st 0 true)))).paused = true ∧
    (∀ t, (update_time t (switch_pause (t0 + dt) (update_time (t0 + dt)
        (switch_pause t0 (TimerState.mk st 0 true))))).delta = dt) ∧
    (update_time (t1 + dt2) (switch_pause t1 (switch_pause (t0 + dt) (update_time (t0 + dt)
        (switch_pause t0 (TimerState.mk st 0 true)))))).paused = false ∧
    (update_time (t1 + dt2) (switch_pause t1 (switch_pause (t0 + dt) (update_time (t0 + dt)
        (switch_pause t0 (TimerState.mk st 0 true)))))).delta = dt + dt2 := by
  simp [switch_pause, update_time, update_time_full]
  ring

/-- C2 (failing input): with the timer paused and an accumulated elapsed
time of 5 seconds, `reset_timer` at time 100 moves the start timestamp but
leaves the elapsed time at 5 (not 0), and a later tick still displays
"00:05 (pause)". -/
theorem reset_timer_paused_keeps_elapsed :
    (reset_timer 100 ⟨0, 5, true⟩).delta = 5 ∧
    (reset_timer 100 ⟨0, 5, true⟩).paused = true ∧
    (reset_timer 100 ⟨0, 5, true⟩).start_time = 100 ∧
    (update_time_full 200 (reset_timer 100 ⟨0, 5, true⟩)).2.1 = "00:05 (pause)" := by
  refine ⟨rfl, rfl, rfl, ?_⟩
  have hr : reset_timer 100 ⟨0, 5, true⟩ = ⟨100, 5, true⟩ := rfl
  rw [hr]
  show elapsed_base 5 ++ " (pause)" = "00:05 (pause)"
  have h1 : pyTrunc ((5 : ℚ) / 60) = 0 := by norm_num [pyTrunc]
  have h2 : pyTrunc (pyFMod 5 60) = 5 := by norm_num [pyFMod, pyTrunc]
  rw [elapsed_base, h1, h2]
  decide

/-- C9: every call to `update_time` returns `True` (the repeating GLib
timer is never cancelled), and when the paused flag is set the call leaves
the accumulated elapsed time unchanged and appends " (pause)" to the
displayed elapsed text. -/
theorem update_time_tick (now : ℚ) (s : TimerState) :
    (update_time_full now s).2.2 = true ∧
    (s.paused = true →
      (update_time_full now s).1.delta = s.delta ∧
      (update_time_full now s).2.1 = elapsed_base s.delta ++ " (pause)") := by
  unfold update_time_full
  refine ⟨rfl, fun h => ?_⟩
  simp [h]

/-- Witness for C9: at time 7 with a paused timer whose elapsed time is 65
seconds, the tick returns `True`, keeps the elapsed time at 65 and appends
" (pause)". -/
theorem update_time_tick_witness :
    (update_time_full 7 ⟨0, 65, true⟩).2.2 = true ∧
    (update_time_full 7 ⟨0, 65, true⟩).1.delta = 65 ∧
    (update_time_full 7 ⟨0, 65, true⟩).2.1 = elapsed_base 65 ++ " (pause)" :=
  ⟨(update_time_tick 7 ⟨0, 65, true⟩).1,
   ((update_time_tick 7 ⟨0, 65, true⟩).2 rfl).1,
   ((update_time_tick 7 ⟨0, 65, true⟩).2 rfl).2⟩

/-- Escape in the quick-jump entry restores the label without touching the
document. -/
theorem on_label_escape (t2 : String) (d : Document) :
    on_label_event (.keyRelease "Escape" t2) .entry d = (.label, d, false) := by
  simp [on_label_event]

/-- Characterization of the Return branch of `on_label_event`. -/
theorem on_label_return (text : String) (d : Document) :
    on_label_event (.keyRelease "Return" text) .entry d =
      (match pyStrToInt (pySplitSlashHead text) with
       | none => (.label, d, false)
       | some k =>
          if k - 1 ≠ (d.cur : ℤ) then
            (.label,
             (d.goto (if k - 1 ≤ 0 then 0
                      else if (d.count : ℤ) ≤ k - 1 then (d.count : ℤ) - 1
                      else k - 1)).1,
             true)
          else (.label, d, false)) := by
  simp only [on_label_event]
  rcases h : pyStrToInt (pySplitSlashHead text) with _ | k <;> simp [h]

/-- C3: confirming the quick-jump entry with Enter parses the leading
integer before "/", and the resulting current index is that number minus
one clamped into `[0, page_count)`; on parse failure nothing is navigated,
the document is unchanged, and the label view is restored; Escape restores
the label view without navigating. -/
theorem quickjump_confirm (text : String) (d : Document) (hc : d.cur < d.count) :
    let r := on_label_event (.keyRelease "Return" text) .entry d
    r.1 = .label ∧
    r.2.1.count = d.count ∧
    (r.2.1.cur =
      match pyStrToInt (pySplitSlashHead text) with
      | some k => clampIdx (k - 1) d.count
      | none => d.cur) ∧
    (pyStrToInt (pySplitSlashHead text) = none → r.2.1 = d ∧ r.2.2 = false) ∧
    (∀ t2 : String, on_label_event (.keyRelease "Escape" t2) .entry d = (.label, d, false)) := by
  have hcount : 0 < d.count := Nat.lt_of_le_of_lt (Nat.zero_le _) hc
  dsimp only
  rw [on_label_return]
  rcases h : pyStrToInt (pySplitSlashHead text) with _ | k
  · exact ⟨rfl, rfl, rfl, fun _ => ⟨rfl, rfl⟩, fun t2 => on_label_escape t2 d⟩
  · dsimp only
    by_cases hk : k - 1 = (d.cur : ℤ)
    · rw [if_neg (not_not_intro hk)]
      refine ⟨rfl, rfl, ?_, fun hnone => Option.noConfusion hnone,
              fun t2 => on_label_escape t2 d⟩
      show d.cur = clampIdx (k - 1) d.count
      rw [hk, clampIdx_of_lt d.cur d.count hc]
    · rw [if_pos hk]
      refine ⟨rfl, Document.goto_fst_count _ _, ?_, fun hnone => Option.noConfusion hnone,
              fun t2 => on_label_escape t2 d⟩
      show ((d.goto _).1).cur = clampIdx (k - 1) d.count
      rw [Document.goto_fst_cur, uiClamp_eq_clampIdx (k - 1) d.count hcount]
      exact clampIdx_of_lt _ _ (clampIdx_lt (k - 1) d.count hcount)

/-- Witness for C3: in a 10-page document at index 5 (page "6/10"),
entering "3/10" and confirming navigates to 0-based index 2, and entering
"abc" leaves the document unchanged with the label restored. -/
theorem quickjump_confirm_witness :
    (⟨10, 5⟩ : Document).cur < (⟨10, 5⟩ : Document).count ∧
    (on_label_event (.keyRelease "Return" "3/10") .entry ⟨10, 5⟩).2.1.cur = 2 ∧
    (on_label_event (.keyRelease "Return" "abc") .entry ⟨10, 5⟩).2.1 = (⟨10, 5⟩ : Document) := by
  refine ⟨by decide, ?_, ?_⟩
  · have h := (quickjump_confirm "3/10" ⟨10, 5⟩ (by decide)).2.2.1
    rw [h]; decide
  · exact ((quickjump_confirm "abc" ⟨10, 5⟩ (by decide)).2.2.2.1 (by decide)).1

/-- C10: on Enter, the handler calls `doc.goto` exactly when the parsed
number minus one differs from the current index before any clamping; and
when no goto happens the handler leaves the document untouched (so no
page-change notification — hence no re-render and no timer unpause — can
occur). -/
theorem quickjump_goto_iff (text : String) (d : Document) :
    let r := on_label_event (.keyRelease "Return" text) .entry d
    (r.2.2 = true ↔
      ∃ k, pyStrToInt (pySplitSlashHead text) = some k ∧ k - 1 ≠ (d.cur : ℤ)) ∧
    (r.2.2 = false → r = (.label, d, false)) := by
  dsimp only
  rw [on_label_return]
  rcases h : pyStrToInt (pySplitSlashHead text) with _ | k
  · simp
  · by_cases hk : k - 1 = (d.cur : ℤ) <;> simp [hk]

/-- Witness for C10: at index 0, entering "3/10" calls goto (3 - 1 ≠ 0);
at index 5, entering "6/10" (the current page) makes no goto call and
leaves everything unchanged. -/
theorem quickjump_goto_iff_witness :
    (on_label_event (.keyRelease "Return" "3/10") .entry ⟨10, 0⟩).2.2 = true ∧
    (on_label_event (.keyRelease "Return" "6/10") .entry ⟨10, 5⟩) =
      (.label, (⟨10, 5⟩ : Document), false) := by
  constructor
  · exact (quickjump_goto_iff "3/10" ⟨10, 0⟩).1.mpr ⟨3, by decide, by decide⟩
  · exact (quickjump_goto_iff "6/10" ⟨10, 5⟩).2 (by decide)

/-- C4: `switch_mode` flips the notes-mode flag and triggers a page-change
re-render (all three panes exposed), leaving the document's current index,
the paused flag, the start timestamp and the accumulated elapsed time
unchanged; and the aspect ratio reported for one same page differs between
notes mode on and off. -/
theorem switch_mode_frame_effect (now : ℚ) (s : UIState) (p : Page)
    (hw : 0 < p.width) (hh : 0 < p.height) :
    let r := switch_mode now s
    r.1.notes_mode = !s.notes_mode ∧
    r.1.doc = s.doc ∧
    r.1.timer = s.timer ∧
    r.1.fullscreen = s.fullscreen ∧
    r.2.exposed_c = true ∧ r.2.exposed_cur = true ∧ r.2.exposed_next = true ∧
    p.get_aspect_ratio r.1.notes_mode ≠ p.get_aspect_ratio s.notes_mode := by
  dsimp only
  refine ⟨rfl, rfl, rfl, rfl, rfl, rfl, rfl, ?_⟩
  have hh0 : p.height ≠ 0 := ne_of_gt hh
  have key : ∀ b : Bool, p.get_aspect_ratio (!b) ≠ p.get_aspect_ratio b := by
    intro b heq
    cases b <;> simp only [Bool.not_false, Bool.not_true, Page.get_aspect_ratio,
        if_true, if_false, Bool.false_eq_true, Bool.true_eq_false] at heq <;>
      rw [div_eq_div_iff hh0 hh0] at heq <;>
      nlinarith [heq, hw, hh, mul_pos hw hh]
  exact key s.notes_mode

/-- Witness for C4: from notes mode off, `switch_mode` turns it on, and a
4:3 page reports different ratios in the two modes. -/
theorem switch_mode_frame_effect_witness :
    (switch_mode 0 ⟨⟨0, 0, true⟩, false, false, ⟨10, 5⟩⟩).1.notes_mode = !false ∧
    Page.get_aspect_ratio ⟨4, 3, []⟩
        ((switch_mode 0 ⟨⟨0, 0, true⟩, false, false, ⟨10, 5⟩⟩).1.notes_mode) ≠
      Page.get_aspect_ratio ⟨4, 3, []⟩ false := by
  have h := switch_mode_frame_effect 0 ⟨⟨0, 0, true⟩, false, false, ⟨10, 5⟩⟩ ⟨4, 3, []⟩
      (by norm_num) (by norm_num)
  exact ⟨h.1, h.2.2.2.2.2.2.2⟩

/-- C5: a page-change notification with `unpause = True` sets the paused
flag to `False`, sets the start timestamp to now only when it was never
set before (the `start_time == 0` sentinel), leaves the accumulated
elapsed time and the document untouched, exposes the content pane, the
presenter current-slide pane and the presenter next-slide pane, and the
next-slide pane ends up hidden exactly when there is no next page (and is
actually rendered exactly when there is one). -/
theorem on_page_change_unpause (now : ℚ) (s : UIState) :
    let r := on_page_change now true s
    r.1.timer.paused = false ∧
    r.1.timer.start_time =
      (if s.timer.start_time = 0 then now else s.timer.start_time) ∧
    r.1.timer.delta = s.timer.delta ∧
    r.1.doc = s.doc ∧
    r.2.exposed_c = true ∧ r.2.exposed_cur = true ∧ r.2.exposed_next = true ∧
    (r.2.next_hidden = true ↔ s.doc.next_number = none) ∧
    (r.2.rendered_next = true ↔ s.doc.next_number ≠ none) := by
  dsimp only
  refine ⟨rfl, rfl, rfl, rfl, rfl, rfl, rfl, ?_, ?_⟩ <;>
    rcases h : s.doc.next_number with _ | n <;>
    simp [on_page_change, on_expose_next, h]

/-- C6: `on_link` looks the page's links up at the raw pixel coordinates
divided by the pane's pixel size; on motion a hand cursor is set exactly
when a link is at that point (default cursor otherwise, and no
navigation); on a button press with a link at the point the document
navigates to that link's destination (clamped into range), and stays put
when no link is there; the next-slide pane is ignored when it shows no
page. -/
theorem on_link_behavior (widget : PaneWidget) (x y ww wh : ℚ) (pageCur : Page)
    (pageNext : Option Page) (d : Document) (hww : 0 < ww) (hwh : 0 < wh) :
    (∀ page, (if widget = .pDaNext then pageNext else some pageCur) = some page →
       ((on_link widget .motionNotify x y ww wh pageCur pageNext d).2 =
          (if (page.get_link_at (x / ww) (y / wh)).isSome then .hand else .default)) ∧
       (on_link widget .motionNotify x y ww wh pageCur pageNext d).1 = d ∧
       ((on_link widget .buttonPress x y ww wh pageCur pageNext d).1.cur =
          (match page.get_link_at (x / ww) (y / wh) with
           | some l => clampIdx l.dest d.count
           | none => d.cur))) ∧
    ((if widget = .pDaNext then pageNext else some pageCur) = none →
       ∀ evType, on_link widget evType x y ww wh pageCur pageNext d = (d, .untouched)) := by
  constructor
  · intro page hp
    refine ⟨?_, ?_, ?_⟩ <;>
      simp only [on_link, hp] <;>
      rcases h : page.get_link_at (x / ww) (y / wh) with _ | l <;>
      simp [h, Document.goto_fst_cur]
  · intro hp evType
    rcases evType <;> simp [on_link, hp]

/-- Witness for C6: a pane of size 2×2 with the pointer at pixel (1, 1)
over a page whose single link covers the whole normalized page and leads
to page 3: motion sets a hand cursor, a press navigates to index 3. -/
theorem on_link_behavior_witness :
    (on_link .cDa .motionNotify 1 1 2 2 ⟨4, 3, [⟨0, 0, 1, 1, 3⟩]⟩ none ⟨10, 5⟩).2 = .hand ∧
    (on_link .cDa .buttonPress 1 1 2 2 ⟨4, 3, [⟨0, 0, 1, 1, 3⟩]⟩ none ⟨10, 5⟩).1.cur = 3 := by
  have h := (on_link_behavior .cDa 1 1 2 2 ⟨4, 3, [⟨0, 0, 1, 1, 3⟩]⟩ none ⟨10, 5⟩
      (by norm_num) (by norm_num)).1 ⟨4, 3, [⟨0, 0, 1, 1, 3⟩]⟩ rfl
  have hcont : Link.contains ⟨0, 0, 1, 1, 3⟩ ((2 : ℚ)⁻¹) ((2 : ℚ)⁻¹) = true := by
    simp only [Link.contains, decide_eq_true_eq]
    norm_num
  have hl : (⟨4, 3, [⟨0, 0, 1, 1, 3⟩]⟩ : Page).get_link_at (1 / 2) (1 / 2) =
      some ⟨0, 0, 1, 1, 3⟩ := by
    simp [Page.get_link_at, List.find?, hcont]
  constructor
  · rw [h.1, hl]; rfl
  · rw [h.2.2, hl]; decide

/-- C7 (failing behavior): after a click swaps the entry in, an event that
makes the entry lose focus without Return or Escape — a focus change, or a
key such as Tab — leaves the editable entry as the event-box child: no
focus-loss path other than Return/Escape restores the label. -/
theorem label_event_focus_loss_keeps_entry :
    (on_label_event .buttonPress .label ⟨10, 0⟩ = (.entry, ⟨10, 0⟩, false)) ∧
    (on_label_event .focusChange .entry ⟨10, 0⟩ = (.entry, ⟨10, 0⟩, false)) ∧
    (on_label_event (.keyRelease "Tab" "3/10") .entry ⟨10, 0⟩ = (.entry, ⟨10, 0⟩, false)) := by
  refine ⟨rfl, rfl, by decide⟩

/-- C8: with a command-line path that does not exist the program shows an
error dialog and exits with status 1; with no argument and the file dialog
cancelled it shows the "No file selected" dialog and exits with status 1;
with an existing path, or a file chosen in the dialog, it proceeds to open
the document (and exits 0 on a normal quit). -/
theorem main_startup_exits (p f : String) (abspath : String → String)
    (pathExists : String → Bool) (dialog : DialogResponse) :
    (pathExists (abspath p) = false →
       main_run (some p) abspath pathExists dialog = .exitErr 1 true) ∧
    (main_run none abspath pathExists .cancel = .exitErr 1 true) ∧
    (pathExists (abspath p) = true →
       main_run (some p) abspath pathExists dialog = .opened ("file://" ++ abspath p)) ∧
    (main_run none abspath pathExists (.ok f) = .opened ("file://" ++ f)) := by
  refine ⟨fun h => ?_, rfl, fun h => ?_, rfl⟩ <;> simp [main_run, h]

/-- Witness for C8: a missing path exits 1 behind an error dialog; an
existing path proceeds to open the file URI. -/
theorem main_startup_exits_witness :
    main_run (some "slides.pdf") (fun s => s) (fun _ => false) .cancel = .exitErr 1 true ∧
    main_run (some "slides.pdf") (fun s => s) (fun _ => true) .cancel =
      .opened ("file://" ++ "slides.pdf") :=
  ⟨(main_startup_exits "slides.pdf" "x" (fun s => s) (fun _ => false) .cancel).1 rfl,
   (main_startup_exits "slides.pdf" "x" (fun s => s) (fun _ => true) .cancel).2.2.1 rfl⟩

end Pympress
